import Mathlib

/-!
Verification development for the BOX3D parametric box / Gridfinity generator
(`src/BOX3D.jsx`).  The source stores all dimensional configuration as
integer "internal units" (IU, 100000 IU = 1 mm) and converts to floating
scene units (inches) only at the geometry boundary via `toScene`.

Modelling conventions:
* IU-valued configuration fields are natural numbers (the UI layer rejects
  negative values and initialises them with `Math.round` of non-negative
  quantities); intermediate cursor arithmetic, which can go negative in the
  source, is carried out in `ℤ`.
* Scene-unit values are exact rationals; the single conversion constant
  `MM_TO_IN = 1/25.4` is represented exactly.  JavaScript evaluates these
  conversions in binary floating point; all properties checked here concern
  the exact arithmetic the source expresses.
* The imperative body of `calculateConstraints` is rendered in SSA style:
  each mutable intermediate (`outerW_IU`, `cursorY_IU`, `targetWallH_IU`,
  the `errors` array, ...) becomes a named definition whose right-hand side
  is transcribed from the corresponding source expression.
-/

namespace Box3D

/-- Source `appMode` strings `'in' | 'mm' | 'gridfinity'` (the literal
`'in'` is a Lean keyword, rendered `inch`). -/
inductive AppMode
  | inch
  | mm
  | gridfinity
deriving DecidableEq, Repr

/-- Source `measureMode` strings `'internal' | 'external'`. -/
inductive MeasureMode
  | internal
  | external
deriving DecidableEq, Repr

/-- Source `gridfinityType` strings `'bin' | 'frame'`. -/
inductive GridfinityType
  | bin
  | frame
deriving DecidableEq, Repr

/-- Source `lidType` strings `'step' | 'slide'`. -/
inductive LidType
  | step
  | slide
deriving DecidableEq, Repr

/-- The configuration record consumed by `calculateConstraints`
(`src/BOX3D.jsx` lines 426-439 and the default config, lines 919-942).
Dimensional fields are IU integers; `infill` is a plain ratio. -/
structure Config where
  measureMode : MeasureMode
  appMode : AppMode
  gridfinityType : GridfinityType
  width : ℕ
  depth : ℕ
  height : ℕ
  gridWidth : ℕ
  gridDepth : ℕ
  gridHeight : ℕ
  wall : ℕ
  floor : ℕ
  lidEnabled : Bool
  lidType : LidType
  lidThickness : ℕ
  lipDepth : ℕ
  tolerance : ℕ
  holes : Bool
  holeSize : ℕ
  infill : ℚ
deriving DecidableEq, Repr

/-- Source line 25: `const IN_TO_MM = 25.4`. -/
def IN_TO_MM : ℚ := 25.4

/-- Source line 26: `const MM_TO_IN = 1 / 25.4`. -/
def MM_TO_IN : ℚ := 1 / 25.4

/-- Source lines 34-37: scene units are inches; `toScene(iu) = iu / IU_PER_MM * MM_TO_IN`. -/
def toScene (iu : ℚ) : ℚ := iu / 100000 * MM_TO_IN

/-- `toScene` applied to an IU integer (the usual call pattern in the source). -/
def toSceneZ (iu : ℤ) : ℚ := toScene (iu : ℚ)

/-- Source line 446: `const grid42_IU = 42 * IU_PER_MM`. -/
def grid42_IU : ℤ := 42 * 100000

/-- Source line 447: `const grid7_IU = 7 * IU_PER_MM`. -/
def grid7_IU : ℤ := 7 * 100000

/-- Source line 448: `const lipHeight_IU = 440000` (4.4 mm stacking lip). -/
def lipHeight_IU : ℤ := 440000

/-- Source line 449: `const railCapH_IU = 200000` (2.0 mm rail cap). -/
def railCapH_IU : ℤ := 200000

/-- Source line 472: `const gridTolerance_IU = 0.5 * IU_PER_MM` (0.5 mm flat shrink). -/
def gridTolerance_IU : ℤ := 50000

/-- Source line 491: `const MAX_DIM_IU = 250 * IU_PER_MM`. -/
def MAX_DIM_IU : ℤ := 250 * 100000

/-- Source line 510: `const footH_IU = 475000` (4.75 mm Gridfinity foot). -/
def footH_IU : ℤ := 475000

/-- Source lines 473-488, width coordinate: the outer footprint in IU.
gridfinity: `gridWidth*grid42 - gridTolerance`; internal: `width + 2*wall`;
external: `width`. -/
def outerW_IU (c : Config) : ℤ :=
  if c.appMode = AppMode.gridfinity then
    (c.gridWidth : ℤ) * grid42_IU - gridTolerance_IU
  else if c.measureMode = MeasureMode.internal then
    (c.width : ℤ) + (c.wall : ℤ) * 2
  else
    (c.width : ℤ)

/-- Source lines 473-488, depth coordinate of the outer footprint. -/
def outerD_IU (c : Config) : ℤ :=
  if c.appMode = AppMode.gridfinity then
    (c.gridDepth : ℤ) * grid42_IU - gridTolerance_IU
  else if c.measureMode = MeasureMode.internal then
    (c.depth : ℤ) + (c.wall : ℤ) * 2
  else
    (c.depth : ℤ)

/-- Source lines 473-488, width coordinate of the inner footprint.
gridfinity: `outer - 2*wall` (no clamp); internal: `width`;
external: `Math.max(0, outer - 2*wall)`. -/
def innerW_IU (c : Config) : ℤ :=
  if c.appMode = AppMode.gridfinity then
    outerW_IU c - (c.wall : ℤ) * 2
  else if c.measureMode = MeasureMode.internal then
    (c.width : ℤ)
  else
    max 0 ((c.width : ℤ) - (c.wall : ℤ) * 2)

/-- Source lines 473-488, depth coordinate of the inner footprint. -/
def innerD_IU (c : Config) : ℤ :=
  if c.appMode = AppMode.gridfinity then
    outerD_IU c - (c.wall : ℤ) * 2
  else if c.measureMode = MeasureMode.internal then
    (c.depth : ℤ)
  else
    max 0 ((c.depth : ℤ) - (c.wall : ℤ) * 2)

/-- Source lines 509-513 (step A of the cursor): the cursor height after the
optional Gridfinity-bin feet. -/
def feetEnd_IU (c : Config) : ℤ :=
  if c.appMode = AppMode.gridfinity ∧ c.gridfinityType = GridfinityType.bin then
    footH_IU
  else 0

/-- Source lines 516-518 (step B): the cursor height after the floor slab. -/
def floorEnd_IU (c : Config) : ℤ := feetEnd_IU c + (c.floor : ℤ)

/-- Source line 524: `stackingHeight_IU = gridHeight * grid7_IU`. -/
def stackingHeight_IU (c : Config) : ℤ := (c.gridHeight : ℤ) * grid7_IU

/-- Source lines 548-557 (external mode): the non-wall vertical budget,
`cursorY` plus the lid/rail stack that will sit above the wall. -/
def nonWallStack_IU (c : Config) : ℤ :=
  floorEnd_IU c +
    (if c.lidEnabled = true ∧ c.lidType = LidType.slide then
       railCapH_IU + ((c.lidThickness : ℤ) + (c.tolerance : ℤ))
     else if c.lidEnabled = true ∧ c.lidType = LidType.step then
       (c.lidThickness : ℤ)
     else 0)

/-- Source lines 521-563: the wall-height target before any clamping
(gridfinity: `stackingHeight - cursorY`; internal: `height` plus the step-lid
insert depth; external: `height - nonWallStack`). -/
def rawTargetWallH_IU (c : Config) : ℤ :=
  if c.appMode = AppMode.gridfinity then
    stackingHeight_IU c - floorEnd_IU c
  else if c.measureMode = MeasureMode.internal then
    (c.height : ℤ) +
      (if c.lidEnabled = true ∧ c.lidType = LidType.step then (c.lipDepth : ℤ) else 0)
  else
    (c.height : ℤ) - nonWallStack_IU c

/-- Source lines 521-563: the wall height actually used.  Note the source's
gridfinity branch applies `Math.max(10000, ...)` only in the `else` of the
error check (lines 527-528), where it is the identity, so an erroneous
gridfinity target is left unclamped; the external branch clamps
unconditionally (line 560). -/
def targetWallH_IU (c : Config) : ℤ :=
  if c.appMode = AppMode.gridfinity then
    (if rawTargetWallH_IU c < 10000 then rawTargetWallH_IU c
     else max 10000 (rawTargetWallH_IU c))
  else if c.measureMode = MeasureMode.internal then
    rawTargetWallH_IU c
  else
    max 10000 (rawTargetWallH_IU c)

/-- Source lines 565-567: the cursor height after the wall segment. -/
def wallEnd_IU (c : Config) : ℤ := floorEnd_IU c + targetWallH_IU c

/-- Source lines 577, 551: the slide-lid spacer height `lidThick + tolerance`. -/
def spacerH_IU (c : Config) : ℤ := (c.lidThickness : ℤ) + (c.tolerance : ℤ)

/-- Source lines 569-609 plus line 616: the final cursor height (`totalH`).
Gridfinity appends the 4.4 mm lip; a slide lid appends spacer + rail cap; a
step lid appends the lid thickness. -/
def totalH_IU (c : Config) : ℤ :=
  if c.appMode = AppMode.gridfinity then
    wallEnd_IU c + lipHeight_IU
  else if c.lidEnabled = true ∧ c.lidType = LidType.slide then
    wallEnd_IU c + spacerH_IU c + railCapH_IU
  else if c.lidEnabled = true ∧ c.lidType = LidType.step then
    wallEnd_IU c + (c.lidThickness : ℤ)
  else
    wallEnd_IU c

/-- Source line 502 message. -/
def wallsTooThickMsg : String := "Walls are too thick for the defined width/depth."

/-- Source line 527 message. -/
def unitCountTooLowMsg : String := "Gridfinity Unit count too low for feet+floor height."

/-- Source line 559 message. -/
def heightTooShortMsg : String := "External height is too short for the floor and lid components."

/-- The `errors` array of `calculateConstraints`, in push order: the
thick-walls check of line 502, then the mode-specific wall-height check
(line 527 for gridfinity, line 559 for external mode). -/
def errorsOf (c : Config) : List String :=
  (if innerW_IU c ≤ 0 ∨ innerD_IU c ≤ 0 then [wallsTooThickMsg] else []) ++
    (if c.appMode = AppMode.gridfinity then
       (if rawTargetWallH_IU c < 10000 then [unitCountTooLowMsg] else [])
     else if c.measureMode = MeasureMode.internal then []
     else if rawTargetWallH_IU c ≤ 0 then [heightTooShortMsg] else [])

/-- The per-control warning map (source object `warnings`), one optional
message per configuration key that the source ever writes. -/
structure Warnings where
  wall : Option String
  floor : Option String
  tolerance : Option String
  lidThickness : Option String
  holeSize : Option String
  infill : Option String
  width : Option String
  depth : Option String
  height : Option String
  gridWidth : Option String
  gridDepth : Option String
  gridHeight : Option String
deriving DecidableEq, Repr

/-- Source line 492 message. -/
def sizeWarnMsg : String := "Exceeds 250mm"

/-- The `warnings` map of `calculateConstraints` (source lines 451-466,
490-500, 531, 543-544, 562). -/
def warningsOf (c : Config) : Warnings where
  wall := if (c.wall : ℤ) < 80000 then some "Fragile (< 0.8mm)" else none
  floor := if (c.floor : ℤ) < 80000 then some "Risk of warping (< 0.8mm)" else none
  tolerance :=
    if c.lidEnabled = true ∧ c.tolerance = 0 then some "0 tolerance: Force fit?" else none
  lidThickness :=
    if c.lidEnabled = true ∧ (c.lidThickness : ℤ) < 40000 then some "Too thin (< 0.4mm)"
    else none
  holeSize :=
    if c.holes = true ∧ (c.holeSize : ℤ) < 200000 then some "Too small (< 2mm)" else none
  infill := if c.holes = true ∧ c.infill < 0.25 then some "Weak structure (< 25%)" else none
  width :=
    if c.appMode ≠ AppMode.gridfinity ∧ outerW_IU c > MAX_DIM_IU then some sizeWarnMsg
    else none
  depth :=
    if c.appMode ≠ AppMode.gridfinity ∧ outerD_IU c > MAX_DIM_IU then some sizeWarnMsg
    else none
  height :=
    if c.appMode = AppMode.gridfinity then none
    else if c.measureMode = MeasureMode.internal then
      (if rawTargetWallH_IU c + floorEnd_IU c +
            (if c.lidEnabled = true ∧ c.lidType = LidType.slide then 500000 else 0) >
          MAX_DIM_IU then some sizeWarnMsg
       else none)
    else if (c.height : ℤ) > MAX_DIM_IU then some sizeWarnMsg
    else none
  gridWidth :=
    if c.appMode = AppMode.gridfinity ∧ outerW_IU c > MAX_DIM_IU then some sizeWarnMsg
    else none
  gridDepth :=
    if c.appMode = AppMode.gridfinity ∧ outerD_IU c > MAX_DIM_IU then some sizeWarnMsg
    else none
  gridHeight :=
    if c.appMode = AppMode.gridfinity ∧ stackingHeight_IU c > MAX_DIM_IU then
      some sizeWarnMsg
    else none

/-- One vertical interval `{ yMin, yMax }` of the layout stack, in scene units. -/
structure Seg where
  yMin : ℚ
  yMax : ℚ
deriving DecidableEq, Repr

/-- The slide-lid rail record `stack.rail` (source lines 584-587). -/
structure RailSegs where
  spacer : Seg
  cap : Seg
deriving DecidableEq, Repr

/-- The positioned lid record `stack.lid` (source lines 589-607).  The slide
lid has no `insertDepth` field in the source, rendered `none` here. -/
structure LidInfo where
  yPos : ℚ
  ltype : LidType
  thickness : ℚ
  width : ℚ
  depth : ℚ
  insertDepth : Option ℚ
deriving DecidableEq, Repr

/-- The vertical stack object (source line 506); `floor` and `wall` are always
populated, the rest are mode-dependent. -/
structure VStack where
  feet : Option Seg
  floor : Seg
  wall : Seg
  rail : Option RailSegs
  lip : Option Seg
  lid : Option LidInfo
  bodyH : Option ℚ
deriving DecidableEq, Repr

/-- Source lines 509-513: the feet segment (Gridfinity bin only). -/
def feetSeg (c : Config) : Option Seg :=
  if c.appMode = AppMode.gridfinity ∧ c.gridfinityType = GridfinityType.bin then
    some ⟨0, toSceneZ footH_IU⟩
  else none

/-- Source line 518: the floor segment. -/
def floorSeg (c : Config) : Seg := ⟨toSceneZ (feetEnd_IU c), toSceneZ (floorEnd_IU c)⟩

/-- Source line 567: the wall segment. -/
def wallSeg (c : Config) : Seg := ⟨toSceneZ (floorEnd_IU c), toSceneZ (wallEnd_IU c)⟩

/-- Source lines 570-574: the Gridfinity lip segment. -/
def lipSeg (c : Config) : Option Seg :=
  if c.appMode = AppMode.gridfinity then
    some ⟨toSceneZ (wallEnd_IU c), toSceneZ (wallEnd_IU c + lipHeight_IU)⟩
  else none

/-- Source lines 576-587: the slide-lid rail (spacer + cap) segments. -/
def railSegs (c : Config) : Option RailSegs :=
  if c.appMode ≠ AppMode.gridfinity ∧ c.lidEnabled = true ∧ c.lidType = LidType.slide then
    some ⟨⟨toSceneZ (wallEnd_IU c), toSceneZ (wallEnd_IU c + spacerH_IU c)⟩,
          ⟨toSceneZ (wallEnd_IU c + spacerH_IU c),
           toSceneZ (wallEnd_IU c + spacerH_IU c + railCapH_IU)⟩⟩
  else none

/-- Source lines 589-607: the positioned lid record.  The slide lid's `yPos`
uses the floating half-thickness `lidThick_IU / 2`, exact in `ℚ`. -/
def lidInfo (c : Config) : Option LidInfo :=
  if c.appMode = AppMode.gridfinity then none
  else if c.lidEnabled = true ∧ c.lidType = LidType.slide then
    some { yPos := toScene ((wallEnd_IU c : ℚ) + (c.lidThickness : ℚ) / 2)
           ltype := LidType.slide
           thickness := toSceneZ (c.lidThickness : ℤ)
           width := toSceneZ (outerW_IU c - (c.wall : ℤ) - (c.tolerance : ℤ))
           depth := toSceneZ (outerD_IU c - (c.tolerance : ℤ))
           insertDepth := none }
  else if c.lidEnabled = true ∧ c.lidType = LidType.step then
    some { yPos := toSceneZ (wallEnd_IU c)
           ltype := LidType.step
           thickness := toSceneZ (c.lidThickness : ℤ)
           width := toSceneZ (outerW_IU c)
           depth := toSceneZ (outerD_IU c)
           insertDepth := some (toSceneZ (c.lipDepth : ℤ)) }
  else none

/-- Source line 533: `stack.bodyH = toScene(stackingHeight_IU)` (gridfinity only). -/
def bodyHOf (c : Config) : Option ℚ :=
  if c.appMode = AppMode.gridfinity then some (toSceneZ (stackingHeight_IU c)) else none

/-- The Layout record returned by `calculateConstraints` (source lines 611-623). -/
structure Layout where
  outerW : ℚ
  outerD : ℚ
  innerW : ℚ
  innerD : ℚ
  totalH : ℚ
  innerH : ℚ
  bodyH : Option ℚ
  stack : VStack
  valid : Bool
  errors : List String
  warnings : Warnings
deriving DecidableEq, Repr

/-- Source lines 425-624: the constraint/layout engine, assembled from the
SSA pipeline above.  Note line 617 applies `toScene` to a difference of
values that are already in scene units; transcribed as written. -/
def calculateConstraints (c : Config) : Layout where
  outerW := toSceneZ (outerW_IU c)
  outerD := toSceneZ (outerD_IU c)
  innerW := toSceneZ (innerW_IU c)
  innerD := toSceneZ (innerD_IU c)
  totalH := toSceneZ (totalH_IU c)
  innerH := toScene ((wallSeg c).yMax - (floorSeg c).yMax)
  bodyH := bodyHOf c
  stack := ⟨feetSeg c, floorSeg c, wallSeg c, railSegs c, lipSeg c, lidInfo c, bodyHOf c⟩
  valid := (errorsOf c).length == 0
  errors := errorsOf c
  warnings := warningsOf c

theorem toScene_eq (x : ℚ) : toScene x = x / 2540000 := by
  unfold toScene MM_TO_IN
  norm_num
  ring

theorem toSceneZ_eq (x : ℤ) : toSceneZ x = (x : ℚ) / 2540000 := toScene_eq _

theorem toScene_le_toScene {a b : ℚ} (h : a ≤ b) : toScene a ≤ toScene b := by
  rw [toScene_eq, toScene_eq]
  exact div_le_div_of_nonneg_right h (by norm_num) |>.trans_eq rfl

theorem toSceneZ_le_toSceneZ {a b : ℤ} (h : a ≤ b) : toSceneZ a ≤ toSceneZ b :=
  toScene_le_toScene (by exact_mod_cast h)

theorem toScene_sub (a b : ℚ) : toScene (a - b) = toScene a - toScene b := by
  rw [toScene_eq, toScene_eq, toScene_eq]
  ring

theorem toSceneZ_sub (a b : ℤ) : toSceneZ (a - b) = toSceneZ a - toSceneZ b := by
  unfold toSceneZ
  push_cast
  exact toScene_sub _ _

/-! ## Mesh serializer (`generateSTL`, source lines 626-670)

The serializer walks the model scene; a mesh is emitted iff it is visible
and its material's `type` field is `'MeshStandardMaterial'`.  Both materials
created by the part assembler (lines 1118-1124) are
`THREE.MeshStandardMaterial` instances: the structural `material` and the
lid-preview `lidMaterial` differ only as objects, not in `type`.  A material
is modelled by its `type` string plus a tag recording which of the two
source objects it is; the serializer reads only the `type` string, exactly
as the source does.  Per triangle the source emits one 7-line ASCII block;
the block is modelled as structured lines carrying the exact rational data.
The source normalizes the facet normal with a floating square root (falling
back to +Y when degenerate); the normal is recorded here as the unnormalized
cross product, since no claim concerns its numeric value, only the block
structure. -/

structure Vec3 where
  x : ℚ
  y : ℚ
  z : ℚ
deriving DecidableEq, Repr

/-- A triangle of a (flattened, world-transformed) mesh geometry. -/
structure Tri where
  v1 : Vec3
  v2 : Vec3
  v3 : Vec3
deriving DecidableEq, Repr

/-- A material as seen by the serializer: its `type` string, plus a tag for
which source material object it is (line 1118 `material` vs line 1122
`lidMaterial`). -/
structure Material where
  matType : String
  isLidPreview : Bool
deriving DecidableEq, Repr

/-- Source lines 1118-1121: the structural `material` (a `MeshStandardMaterial`). -/
def structuralMaterial : Material := ⟨"MeshStandardMaterial", false⟩

/-- Source lines 1122-1124: the lid-preview `lidMaterial` (also a
`MeshStandardMaterial`). -/
def lidMaterial : Material := ⟨"MeshStandardMaterial", true⟩

/-- A mesh instance as the serializer sees it: visibility flag, material, and
its flattened triangle list. -/
structure MeshObj where
  visible : Bool
  material : Material
  tris : List Tri
deriving DecidableEq, Repr

def vsub (a b : Vec3) : Vec3 := ⟨a.x - b.x, a.y - b.y, a.z - b.z⟩

def vcross (a b : Vec3) : Vec3 :=
  ⟨a.y * b.z - a.z * b.y, a.z * b.x - a.x * b.z, a.x * b.y - a.y * b.x⟩

def vscale (s : ℚ) (v : Vec3) : Vec3 := ⟨s * v.x, s * v.y, s * v.z⟩

/-- Source lines 649-651: the facet normal direction, `cross(v2-v1, v3-v1)`
(the source then rescales it to unit length in floating point). -/
def triNormalDir (t : Tri) : Vec3 := vcross (vsub t.v2 t.v1) (vsub t.v3 t.v1)

/-- One line of the emitted ASCII STL text. -/
inductive STLLine
  | solidHeader
  | facetNormal (n : Vec3)
  | outerLoop
  | vertexLine (v : Vec3)
  | endLoop
  | endFacet
  | endSolid
deriving DecidableEq, Repr

/-- Source lines 644-665: the 7-line block emitted for one triangle, with
vertices rescaled by `IN_TO_MM`. -/
def emitTriangle (t : Tri) : List STLLine :=
  [STLLine.facetNormal (triNormalDir t),
   STLLine.outerLoop,
   STLLine.vertexLine (vscale IN_TO_MM t.v1),
   STLLine.vertexLine (vscale IN_TO_MM t.v2),
   STLLine.vertexLine (vscale IN_TO_MM t.v3),
   STLLine.endLoop,
   STLLine.endFacet]

/-- Source lines 633-666: the per-mesh contribution; a mesh is serialized iff
it is visible and its material `type` is `'MeshStandardMaterial'`. -/
def meshLines (m : MeshObj) : List STLLine :=
  if m.visible && (m.material.matType == "MeshStandardMaterial") then
    m.tris.flatMap emitTriangle
  else []

/-- Source lines 626-670: the full serializer output as a list of lines,
framed by the `solid` / `endsolid` pair. -/
def generateSTL (scene : List MeshObj) : List STLLine :=
  [STLLine.solidHeader] ++ scene.flatMap meshLines ++ [STLLine.endSolid]

def isFacetLine : STLLine → Bool
  | STLLine.facetNormal _ => true
  | _ => false

def isSolidHeaderLine : STLLine → Bool
  | STLLine.solidHeader => true
  | _ => false

def isEndSolidLine : STLLine → Bool
  | STLLine.endSolid => true
  | _ => false

/-- Number of `facet normal` blocks in an output. -/
def facetCount (ls : List STLLine) : ℕ := ls.countP isFacetLine

/-- The claim's notion of the serializer input: total triangle count over the
visible, structural (non-lid-preview) meshes. -/
def structuralTriCount (scene : List MeshObj) : ℕ :=
  ((scene.filter fun m => m.visible && !m.material.isLidPreview).map
    fun m => m.tris.length).sum

/-- What the code actually serializes: total triangle count over the visible
meshes whose material `type` is `'MeshStandardMaterial'`. -/
def standardMaterialTriCount (scene : List MeshObj) : ℕ :=
  ((scene.filter fun m => m.visible && (m.material.matType == "MeshStandardMaterial")).map
    fun m => m.tris.length).sum

/-! ## Gridfinity foot (`createGridfinityFootGeo`, source lines 307-334) -/

/-- One level `{ y, width, depth, radius }` of a stacked profile (scene units). -/
structure Level where
  y : ℚ
  width : ℚ
  depth : ℚ
  radius : ℚ
deriving DecidableEq, Repr

/-- One bottom-hole descriptor `{ x, z, radius, depth, screwRadius }` as built
for the Gridfinity foot (all five fields present there). -/
structure Hole where
  x : ℚ
  z : ℚ
  radius : ℚ
  depth : ℚ
  screwRadius : ℚ
deriving DecidableEq, Repr

/-- Source lines 312-317: the four foot profile levels. -/
def gridfinityFootLevels : List Level :=
  [⟨0, 35.6 * MM_TO_IN, 35.6 * MM_TO_IN, 1.05 * MM_TO_IN⟩,
   ⟨0.7 * MM_TO_IN, 37.0 * MM_TO_IN, 37.0 * MM_TO_IN, 1.75 * MM_TO_IN⟩,
   ⟨(0.7 + 1.8) * MM_TO_IN, 37.0 * MM_TO_IN, 37.0 * MM_TO_IN, 1.75 * MM_TO_IN⟩,
   ⟨(0.7 + 1.8 + 2.25) * MM_TO_IN, 41.5 * MM_TO_IN, 41.5 * MM_TO_IN, 4.0 * MM_TO_IN⟩]

/-- Source line 321: `magR = (6.5 / 2) * MM_TO_IN` (6 mm magnet + 0.5 mm
clearance on the diameter). -/
def footMagR : ℚ := (6.5 / 2) * MM_TO_IN

/-- Source line 322: `magD = 2.4 * MM_TO_IN`. -/
def footMagD : ℚ := 2.4 * MM_TO_IN

/-- Source line 323: `screwR = (2.9 / 2) * MM_TO_IN`. -/
def footScrewR : ℚ := (2.9 / 2) * MM_TO_IN

/-- Source line 324: `magOff = 13.0 * MM_TO_IN`. -/
def footMagOff : ℚ := 13.0 * MM_TO_IN

/-- Source lines 325-330: the four magnet/screw hole descriptors of one foot. -/
def gridfinityFootHoles : List Hole :=
  [⟨-footMagOff, -footMagOff, footMagR, footMagD, footScrewR⟩,
   ⟨footMagOff, -footMagOff, footMagR, footMagD, footScrewR⟩,
   ⟨-footMagOff, footMagOff, footMagR, footMagD, footScrewR⟩,
   ⟨footMagOff, footMagOff, footMagR, footMagD, footScrewR⟩]

/-! ## Planar perforation generator (`createPerforatedWall`, source lines 1224-1265)

The source computes `centerSpacing = hexR * Math.sqrt(3 / voidFraction)`, an
irrational scene length.  Its exact square is embedded (`perfSpacingSq`);
the hole-placement loops, which consume the spacing as an opaque length, are
embedded parametrically in the spacing values `spacingX`, `spacingY`
(the source sets `spacingX = centerSpacing`,
`spacingY = centerSpacing * sqrt 3 / 2`).  Two positive lengths are equal
iff their squares are, so spacing claims are settled on the squares. -/

/-- Source line 1232: `hexR = toScene(holeSize) / 2 + (0.5 / 2) * MM_TO_IN`. -/
def perfHexR (holeSize : ℕ) : ℚ := toScene (holeSize : ℚ) / 2 + (0.5 / 2) * MM_TO_IN

/-- Source line 1233: `voidFraction = 1 - Math.min(0.99, Math.max(0.01, infill))`. -/
def perfVoidFraction (infill : ℚ) : ℚ := 1 - min 0.99 (max 0.01 infill)

/-- The exact square of source line 1234's
`centerSpacing = hexR * Math.sqrt(3 / voidFraction)`. -/
def perfSpacingSq (hexR voidFraction : ℚ) : ℚ := hexR ^ 2 * (3 / voidFraction)

/-- The spec's stated spacing formula, squared: the claim says the spacing is
`holeRadius * sqrt(3 / (1 - f))` for target void fraction `f`.  Stated from
the spec's words, for comparison against `perfSpacingSq`. -/
def specClaimSpacingSq (holeRadius f : ℚ) : ℚ := holeRadius ^ 2 * (3 / (1 - f))

/-- Source line 1238: `margin = thick * 1.5`. -/
def perfMargin (thick : ℚ) : ℚ := thick * 1.5

/-- Source line 1242: `startX = -w/2 + margin + hexR`. -/
def perfStartX (w thick hexR : ℚ) : ℚ := -w / 2 + perfMargin thick + hexR

/-- Source line 1243: `startY = margin + hexR`. -/
def perfStartY (thick hexR : ℚ) : ℚ := perfMargin thick + hexR

/-- Source lines 1238-1263: the emitted hexagon center positions, as a
function of the panel, the hole radius, and the (irrational, hence
parametric) spacings.  `cols`/`rows` are `Math.floor` of the available span
over the spacing; odd rows are offset by half a spacing and drop their last
column; any center beyond the right/top margin is skipped. -/
def perfCenters (w height thick hexR spacingX spacingY : ℚ) : List (ℚ × ℚ) :=
  let margin := perfMargin thick
  let availW := w - margin * 2
  let availH := height - margin * 2
  let startX := perfStartX w thick hexR
  let startY := perfStartY thick hexR
  let cols : ℤ := ⌊availW / spacingX⌋
  let rows : ℤ := ⌊availH / spacingY⌋
  if 0 < cols ∧ 0 < rows then
    (List.range rows.toNat).flatMap fun r =>
      (List.range cols.toNat).filterMap fun c =>
        let isOddRow := r % 2 = 1
        let offsetX := if isOddRow then spacingX / 2 else 0
        if isOddRow ∧ c = cols.toNat - 1 then none
        else
          let cx := startX + c * spacingX + offsetX
          let cy := startY + r * spacingY
          if cx > w / 2 - margin ∨ cy > height - margin then none
          else some (cx, cy)
  else []

/-! ## Ring/profile library (`generateRoundedRectRing`, source lines 77-99,
and the side-wall loop of `buildProfileGeometry`, source lines 102-136)

The corner points are placed with `Math.cos`/`Math.sin` of angles that are
rational multiples of pi.  The claims about this library concern only point
counts, ring lengths and index bounds, all independent of the trigonometric
values, so the trig functions are abstracted: `cosf`/`sinf` take the angle
measured in multiples of pi (the source's `-Math.PI / 2` becomes `-1/2`,
`3 * Math.PI / 2` becomes `3/2`). -/

structure Pt2 where
  x : ℚ
  z : ℚ
deriving DecidableEq, Repr

structure Pt3 where
  x : ℚ
  y : ℚ
  z : ℚ
deriving DecidableEq, Repr

/-- One corner record of source lines 84-89: arc center and the start/end
angles (in multiples of pi). -/
structure Corner where
  cx : ℚ
  cz : ℚ
  a0 : ℚ
  a1 : ℚ
deriving DecidableEq, Repr

/-- Source lines 84-89: the four corner-arc records, counterclockwise from
bottom-right. -/
def roundedRectCorners (hw hd r : ℚ) : List Corner :=
  [⟨hw - r, -(hd - r), -(1 / 2), 0⟩,
   ⟨hw - r, hd - r, 0, 1 / 2⟩,
   ⟨-(hw - r), hd - r, 1 / 2, 1⟩,
   ⟨-(hw - r), -(hd - r), 1, 3 / 2⟩]

/-- Source lines 77-99: the rounded-rectangle perimeter ring; the corner
radius is clamped to `min(radius, hw, hd)`, then each corner contributes
`cornerSegs` arc points. -/
def generateRoundedRectRing (cosf sinf : ℚ → ℚ) (width depth radius : ℚ)
    (cornerSegs : ℕ) : List Pt2 :=
  let hw := width / 2
  let hd := depth / 2
  let r := min radius (min hw hd)
  (roundedRectCorners hw hd r).flatMap fun c =>
    (List.range cornerSegs).map fun (i : ℕ) =>
      let t : ℚ := (i : ℚ) / (cornerSegs : ℚ)
      let angle := c.a0 + (c.a1 - c.a0) * t
      ⟨c.cx + r * cosf angle, c.cz + r * sinf angle⟩

/-- Source lines 107-109: one level's ring lifted to 3D at the level's `y`. -/
def levelRing (cosf sinf : ℚ → ℚ) (cornerSegs : ℕ) (l : Level) : List Pt3 :=
  (generateRoundedRectRing cosf sinf l.width l.depth l.radius cornerSegs).map
    fun p => ⟨p.x, l.y, p.z⟩

/-- Source lines 107-109: `rings = levels.map(...)`. -/
def profileRings (cosf sinf : ℚ → ℚ) (levels : List Level) (cornerSegs : ℕ) :
    List (List Pt3) :=
  levels.map (levelRing cosf sinf cornerSegs)

/-- Source lines 117-126: the vertex stream pushed by the side-wall loop --
for each adjacent ring pair, ring `r` then ring `r+1` (the loop over
`r < rings.length - 1` paired with `rings[r]`, `rings[r+1]` is rendered as a
zip of `rings` with its tail). -/
def sideWallVertices (rings : List (List Pt3)) : List Pt3 :=
  (rings.zip rings.tail).flatMap fun rr => rr.1 ++ rr.2

/-- Source lines 127-135: the triangle indices pushed by the side-wall loop.
`baseIdx` is the vertex count already pushed when pair `r` starts, which is
`r * (2 * ptsPerRing)`; each `i` contributes the two triangles
`(a,b,c)`, `(a,c,d)`. -/
def sideWallIndices (numRings ptsPerRing : ℕ) : List ℕ :=
  (List.range (numRings - 1)).flatMap fun r =>
    (List.range ptsPerRing).flatMap fun i =>
      let base := r * (2 * ptsPerRing)
      let nxt := (i + 1) % ptsPerRing
      [base + i, base + nxt, base + ptsPerRing + nxt,
       base + i, base + ptsPerRing + nxt, base + ptsPerRing + i]

/-! ## Helper lemmas about the scene-unit conversion -/

theorem toSceneZ_lt_toSceneZ {a b : ℤ} (h : a < b) : toSceneZ a < toSceneZ b := by
  rw [toSceneZ_eq, toSceneZ_eq]
  gcongr

theorem toSceneZ_inj {a b : ℤ} (h : toSceneZ a = toSceneZ b) : a = b := by
  rw [toSceneZ_eq, toSceneZ_eq] at h
  have h2 : (a : ℚ) = b := by
    field_simp at h
    exact_mod_cast h
  exact_mod_cast h2

theorem toSceneZ_zero : toSceneZ 0 = 0 := by
  rw [toSceneZ_eq]
  norm_num

theorem toSceneZ_neg_of_neg {a : ℤ} (h : a < 0) : toSceneZ a < 0 := by
  have := toSceneZ_lt_toSceneZ h
  rwa [toSceneZ_zero] at this

theorem toSceneZ_nonneg {a : ℤ} (h : 0 ≤ a) : 0 ≤ toSceneZ a := by
  rcases h.lt_or_eq with h | h
  · exact le_of_lt (by have := toSceneZ_lt_toSceneZ h; rwa [toSceneZ_zero] at this)
  · rw [← h, toSceneZ_zero]

/-- The `errors` field of the returned Layout is the `errorsOf` pipeline value. -/
theorem calc_errors (c : Config) : (calculateConstraints c).errors = errorsOf c := rfl

/-- The `valid` field is the emptiness test of the `errors` array (source line 620). -/
theorem calc_valid (c : Config) :
    (calculateConstraints c).valid = ((errorsOf c).length == 0) := rfl

theorem errors_nil_of_valid {c : Config} (hv : (calculateConstraints c).valid = true) :
    errorsOf c = [] := by
  rw [calc_valid] at hv
  cases h : errorsOf c with
  | nil => rfl
  | cons a l => rw [h] at hv; simp at hv

/-- For a valid layout, the gridfinity wall-height error did not fire, hence
the raw gridfinity target is at least the 0.1 mm threshold. -/
theorem gridfinity_target_ge_of_valid {c : Config}
    (hg : c.appMode = AppMode.gridfinity)
    (hv : (calculateConstraints c).valid = true) :
    ¬ rawTargetWallH_IU c < 10000 := by
  intro hlt
  have h := errors_nil_of_valid hv
  rw [errorsOf, hg] at h
  simp only [if_pos rfl, if_pos hlt] at h
  rcases List.append_eq_nil.mp h with ⟨_, h2⟩
  exact List.cons_ne_nil _ _ h2

/-- For a valid layout the wall target height is non-negative (all three modes). -/
theorem targetWallH_nonneg_of_valid {c : Config}
    (hv : (calculateConstraints c).valid = true) :
    0 ≤ targetWallH_IU c := by
  unfold targetWallH_IU
  by_cases hg : c.appMode = AppMode.gridfinity
  · rw [if_pos hg, if_neg (gridfinity_target_ge_of_valid hg hv)]
    have : (10000 : ℤ) ≤ max 10000 (rawTargetWallH_IU c) := le_max_left _ _
    omega
  · rw [if_neg hg]
    by_cases hm : c.measureMode = MeasureMode.internal
    · rw [if_pos hm]
      unfold rawTargetWallH_IU
      rw [if_neg hg, if_pos hm]
      split <;> omega
    · rw [if_neg hm]
      have : (10000 : ℤ) ≤ max 10000 (rawTargetWallH_IU c) := le_max_left _ _
      omega

/-! ## Concrete configurations used by witnesses and counterexamples -/

/-- The default internal-capacity configuration of the app (source lines
919-942; 3.5 x 5.5 x 2.5 in, 0.08 in wall/floor, no lid). -/
def cfgInternalDefault : Config where
  measureMode := MeasureMode.internal
  appMode := AppMode.inch
  gridfinityType := GridfinityType.bin
  width := 8890000
  depth := 13970000
  height := 6350000
  gridWidth := 2
  gridDepth := 3
  gridHeight := 6
  wall := 203200
  floor := 203200
  lidEnabled := false
  lidType := LidType.step
  lidThickness := 203200
  lipDepth := 381000
  tolerance := 25400
  holes := false
  holeSize := 635000
  infill := 1 / 2

/-- A 2 x 3 x 6U Gridfinity bin with 1 mm walls and floor. -/
def cfgGridfinityBin : Config :=
  { cfgInternalDefault with
      appMode := AppMode.gridfinity
      wall := 100000
      floor := 100000 }

/-- A 1 x 1 Gridfinity bin with 21 mm walls: the computed inner width is
`41.5 - 42 = -0.5` mm. -/
def cfgThickWallGrid : Config :=
  { cfgGridfinityBin with wall := 2100000, gridWidth := 1, gridDepth := 1 }

/-- A 2U Gridfinity bin with a 10 mm floor: feet (4.75 mm) + floor exceed the
14 mm stacking height, so the raw wall target is -0.75 mm. -/
def cfgShortGrid : Config :=
  { cfgGridfinityBin with gridHeight := 2, floor := 1000000 }

/-- An external-bounds box, no lid, whose height exceeds the floor by only
0.05 mm: the wall remainder is positive but below the 0.1 mm threshold. -/
def cfgThinExternal : Config :=
  { cfgInternalDefault with
      measureMode := MeasureMode.external
      height := 208200
      floor := 203200 }

/-- An external-bounds box whose walls consume the full width. -/
def cfgZeroInnerExternal : Config :=
  { cfgInternalDefault with
      measureMode := MeasureMode.external
      width := 100000
      wall := 100000 }

/-- An external-bounds box with a slide lid. -/
def cfgSlideExternal : Config :=
  { cfgInternalDefault with
      measureMode := MeasureMode.external
      lidEnabled := true
      lidType := LidType.slide }

/-! ## C9: `valid` iff `errors` empty -/

/-- C9: for every configuration, the Layout returned by the constraint engine
has `valid = false` if and only if its `errors` list is non-empty. -/
theorem valid_false_iff_errors_nonempty (c : Config) :
    (calculateConstraints c).valid = false ↔ (calculateConstraints c).errors ≠ [] := by
  rw [calc_valid, calc_errors]
  cases h : errorsOf c <;> simp

/-! ## C1: gridfinity footprint and body height -/

/-- C1: in gridfinity mode the outer footprint is `gridUnits * 42 mm - 0.5 mm`
(flat clearance, subtracted once), the inner footprint is outer minus twice
the wall, and the pre-lip body height is exactly `gridHeight * 7 mm`. -/
theorem gridfinity_footprint_exact (c : Config)
    (h : c.appMode = AppMode.gridfinity) :
    (calculateConstraints c).outerW = ((42 * c.gridWidth : ℚ) - 0.5) * MM_TO_IN
    ∧ (calculateConstraints c).outerD = ((42 * c.gridDepth : ℚ) - 0.5) * MM_TO_IN
    ∧ (calculateConstraints c).innerW
        = (calculateConstraints c).outerW - 2 * toSceneZ (c.wall : ℤ)
    ∧ (calculateConstraints c).innerD
        = (calculateConstraints c).outerD - 2 * toSceneZ (c.wall : ℤ)
    ∧ (calculateConstraints c).bodyH = some ((7 * c.gridHeight : ℚ) * MM_TO_IN) := by
  refine ⟨?_, ?_, ?_, ?_, ?_⟩
  · show toSceneZ (outerW_IU c) = _
    rw [outerW_IU, if_pos h, toSceneZ_eq, MM_TO_IN, grid42_IU, gridTolerance_IU]
    push_cast
    ring_nf
  · show toSceneZ (outerD_IU c) = _
    rw [outerD_IU, if_pos h, toSceneZ_eq, MM_TO_IN, grid42_IU, gridTolerance_IU]
    push_cast
    ring_nf
  · show toSceneZ (innerW_IU c) = toSceneZ (outerW_IU c) - 2 * toSceneZ (c.wall : ℤ)
    rw [innerW_IU, if_pos h]
    rw [show outerW_IU c - (c.wall : ℤ) * 2 = outerW_IU c - ((c.wall : ℤ) + (c.wall : ℤ)) by ring,
      show outerW_IU c - ((c.wall : ℤ) + (c.wall : ℤ))
          = outerW_IU c - (c.wall : ℤ) - (c.wall : ℤ) by ring,
      toSceneZ_sub, toSceneZ_sub]
    ring
  · show toSceneZ (innerD_IU c) = toSceneZ (outerD_IU c) - 2 * toSceneZ (c.wall : ℤ)
    rw [innerD_IU, if_pos h]
    rw [show outerD_IU c - (c.wall : ℤ) * 2 = outerD_IU c - ((c.wall : ℤ) + (c.wall : ℤ)) by ring,
      show outerD_IU c - ((c.wall : ℤ) + (c.wall : ℤ))
          = outerD_IU c - (c.wall : ℤ) - (c.wall : ℤ) by ring,
      toSceneZ_sub, toSceneZ_sub]
    ring
  · show bodyHOf c = _
    rw [bodyHOf, if_pos h, stackingHeight_IU, grid7_IU, toSceneZ_eq, MM_TO_IN]
    push_cast
    rw [Option.some_inj]
    ring_nf

/-- Witness for C1 at the 2 x 3 x 6U bin. -/
theorem gridfinity_footprint_exact_witness :
    cfgGridfinityBin.appMode = AppMode.gridfinity
    ∧ ((calculateConstraints cfgGridfinityBin).outerW
          = ((42 * cfgGridfinityBin.gridWidth : ℚ) - 0.5) * MM_TO_IN
       ∧ (calculateConstraints cfgGridfinityBin).outerD
          = ((42 * cfgGridfinityBin.gridDepth : ℚ) - 0.5) * MM_TO_IN
       ∧ (calculateConstraints cfgGridfinityBin).innerW
          = (calculateConstraints cfgGridfinityBin).outerW
              - 2 * toSceneZ (cfgGridfinityBin.wall : ℤ)
       ∧ (calculateConstraints cfgGridfinityBin).innerD
          = (calculateConstraints cfgGridfinityBin).outerD
              - 2 * toSceneZ (cfgGridfinityBin.wall : ℤ)
       ∧ (calculateConstraints cfgGridfinityBin).bodyH
          = some ((7 * cfgGridfinityBin.gridHeight : ℚ) * MM_TO_IN)) :=
  ⟨rfl, gridfinity_footprint_exact cfgGridfinityBin rfl⟩

/-! ## C2: behaviour on non-positive inner dimensions -/

/-- C2 counterexample: in gridfinity mode with 21 mm walls on a 1 x 1 bin the
engine records the error but returns a strictly negative inner width
(`-0.5` mm), so the returned inner dimensions are not clamped to a positive
value. -/
theorem inner_dims_not_clamped_cex :
    (calculateConstraints cfgThickWallGrid).innerW < 0
    ∧ wallsTooThickMsg ∈ (calculateConstraints cfgThickWallGrid).errors := by
  constructor
  · show toSceneZ (innerW_IU cfgThickWallGrid) < 0
    apply toSceneZ_neg_of_neg
    decide
  · rw [calc_errors]
    decide

/-- C2 amended: whenever the computed inner width or depth is non-positive
the engine records the thick-walls error and still returns a Layout; in
external mode the inner dimensions are clamped to at least zero (and may be
exactly zero), while gridfinity and internal modes return them unclamped. -/
theorem inner_nonpositive_records_error (c : Config)
    (h : innerW_IU c ≤ 0 ∨ innerD_IU c ≤ 0) :
    wallsTooThickMsg ∈ (calculateConstraints c).errors
    ∧ (c.appMode ≠ AppMode.gridfinity → c.measureMode = MeasureMode.external →
        0 ≤ (calculateConstraints c).innerW ∧ 0 ≤ (calculateConstraints c).innerD) := by
  constructor
  · rw [calc_errors, errorsOf, if_pos h]
    exact List.mem_append_left _ (List.mem_singleton_self _)
  · intro hg hm
    have hm2 : c.measureMode ≠ MeasureMode.internal := by
      rw [hm]
      decide
    constructor
    · show 0 ≤ toSceneZ (innerW_IU c)
      apply toSceneZ_nonneg
      rw [innerW_IU, if_neg hg, if_neg hm2]
      exact le_max_left _ _
    · show 0 ≤ toSceneZ (innerD_IU c)
      apply toSceneZ_nonneg
      rw [innerD_IU, if_neg hg, if_neg hm2]
      exact le_max_left _ _

/-- Witness for the amended C2 at an external box whose walls consume the
full width (inner width clamps to exactly zero). -/
theorem inner_nonpositive_records_error_witness :
    (innerW_IU cfgZeroInnerExternal ≤ 0 ∨ innerD_IU cfgZeroInnerExternal ≤ 0)
    ∧ (wallsTooThickMsg ∈ (calculateConstraints cfgZeroInnerExternal).errors
       ∧ (cfgZeroInnerExternal.appMode ≠ AppMode.gridfinity →
           cfgZeroInnerExternal.measureMode = MeasureMode.external →
           0 ≤ (calculateConstraints cfgZeroInnerExternal).innerW
           ∧ 0 ≤ (calculateConstraints cfgZeroInnerExternal).innerD)) :=
  ⟨Or.inl (by decide),
   inner_nonpositive_records_error cfgZeroInnerExternal (Or.inl (by decide))⟩

/-! ## C3: gridfinity wall-height error does not clamp -/

/-- C3: at a 2U bin with a 10 mm floor the engine records the
unit-count-too-low error, yet the wall segment height is `-0.75` mm -- below
the 0.1 mm threshold and negative -- because the source's
`Math.max(10000, ...)` clamp sits in the `else` branch of the error check
(lines 527-528), where it is the identity.  This evaluates the code at the
failing input of the claim. -/
theorem gridfinity_wall_unclamped_at_bug :
    unitCountTooLowMsg ∈ (calculateConstraints cfgShortGrid).errors
    ∧ (calculateConstraints cfgShortGrid).stack.wall.yMax
        - (calculateConstraints cfgShortGrid).stack.wall.yMin = toSceneZ (-75000)
    ∧ (calculateConstraints cfgShortGrid).stack.wall.yMax
        < (calculateConstraints cfgShortGrid).stack.wall.yMin := by
  refine ⟨?_, ?_, ?_⟩
  · rw [calc_errors]
    decide
  · show toSceneZ (wallEnd_IU cfgShortGrid) - toSceneZ (floorEnd_IU cfgShortGrid) = _
    rw [← toSceneZ_sub]
    congr 1
  · show toSceneZ (wallEnd_IU cfgShortGrid) < toSceneZ (floorEnd_IU cfgShortGrid)
    apply toSceneZ_lt_toSceneZ
    decide

/-! ## C5: external-mode wall height -/

/-- C5 counterexample: an external box, no lid, whose height exceeds the
floor by 0.05 mm.  The remainder `height - floor` is positive, no error is
recorded, yet the returned wall height is the 0.1 mm clamp value, not the
remainder -- refuting the claim that the wall height always equals the
remainder. -/
theorem external_wall_height_cex :
    (calculateConstraints cfgThinExternal).errors = []
    ∧ nonWallStack_IU cfgThinExternal = (cfgThinExternal.floor : ℤ)
    ∧ (calculateConstraints cfgThinExternal).stack.wall.yMax
          - (calculateConstraints cfgThinExternal).stack.wall.yMin
        ≠ toSceneZ ((cfgThinExternal.height : ℤ) - (cfgThinExternal.floor : ℤ)) := by
  refine ⟨?_, by decide, ?_⟩
  · rw [calc_errors]
    decide
  · show toSceneZ (wallEnd_IU cfgThinExternal) - toSceneZ (floorEnd_IU cfgThinExternal) ≠ _
    rw [← toSceneZ_sub]
    intro hEq
    have h2 := toSceneZ_inj hEq
    revert h2
    decide

/-- C5 amended: in external mode the wall height equals the requested height
minus the floor minus the lid stack (slide: spacer `lidThickness + tolerance`
plus the fixed 2 mm rail cap; step: lid thickness; none: nothing), clamped
below at the 0.1 mm threshold; the too-short error is recorded iff that
remainder is non-positive. -/
theorem external_wall_height (c : Config)
    (hg : c.appMode ≠ AppMode.gridfinity)
    (hm : c.measureMode = MeasureMode.external) :
    (calculateConstraints c).stack.wall.yMax - (calculateConstraints c).stack.wall.yMin
      = toSceneZ (max 10000 ((c.height : ℤ) - (c.floor : ℤ) -
          (if c.lidEnabled = true ∧ c.lidType = LidType.slide then
             ((c.lidThickness : ℤ) + (c.tolerance : ℤ)) + railCapH_IU
           else if c.lidEnabled = true ∧ c.lidType = LidType.step then
             (c.lidThickness : ℤ)
           else 0)))
    ∧ (heightTooShortMsg ∈ (calculateConstraints c).errors ↔
        (c.height : ℤ) - (c.floor : ℤ) -
          (if c.lidEnabled = true ∧ c.lidType = LidType.slide then
             ((c.lidThickness : ℤ) + (c.tolerance : ℤ)) + railCapH_IU
           else if c.lidEnabled = true ∧ c.lidType = LidType.step then
             (c.lidThickness : ℤ)
           else 0) ≤ 0) := by
  have hm2 : c.measureMode ≠ MeasureMode.internal := by
    rw [hm]
    decide
  have hfeet : feetEnd_IU c = 0 := by
    rw [feetEnd_IU, if_neg]
    intro hc
    exact hg hc.1
  have hraw : rawTargetWallH_IU c = (c.height : ℤ) - (c.floor : ℤ) -
      (if c.lidEnabled = true ∧ c.lidType = LidType.slide then
         ((c.lidThickness : ℤ) + (c.tolerance : ℤ)) + railCapH_IU
       else if c.lidEnabled = true ∧ c.lidType = LidType.step then
         (c.lidThickness : ℤ)
       else 0) := by
    rw [rawTargetWallH_IU, if_neg hg, if_neg hm2, nonWallStack_IU, floorEnd_IU, hfeet]
    split
    · ring
    · split
      · ring
      · ring
  constructor
  · show toSceneZ (wallEnd_IU c) - toSceneZ (floorEnd_IU c) = _
    rw [← toSceneZ_sub]
    congr 1
    rw [wallEnd_IU, targetWallH_IU, if_neg hg, if_neg hm2, hraw]
    ring
  · rw [calc_errors, errorsOf, if_neg hg, if_neg hm2]
    rw [List.mem_append]
    constructor
    · intro hmem
      rcases hmem with hmem | hmem
      · exfalso
        revert hmem
        split
        · intro hmem
          rw [List.mem_singleton] at hmem
          revert hmem
          decide
        · intro hmem
          exact (List.not_mem_nil _) hmem
      · rw [← hraw]
        revert hmem
        split
        · intro _
          assumption
        · intro hmem
          exact absurd hmem (List.not_mem_nil _)
    · intro hle
      right
      rw [← hraw] at hle
      rw [if_pos hle]
      exact List.mem_singleton_self _

/-- Witness for the amended C5 at an external slide-lid box. -/
theorem external_wall_height_witness :
    cfgSlideExternal.appMode ≠ AppMode.gridfinity
    ∧ cfgSlideExternal.measureMode = MeasureMode.external
    ∧ ((calculateConstraints cfgSlideExternal).stack.wall.yMax
          - (calculateConstraints cfgSlideExternal).stack.wall.yMin
        = toSceneZ (max 10000 ((cfgSlideExternal.height : ℤ) - (cfgSlideExternal.floor : ℤ) -
            (if cfgSlideExternal.lidEnabled = true ∧ cfgSlideExternal.lidType = LidType.slide then
               ((cfgSlideExternal.lidThickness : ℤ) + (cfgSlideExternal.tolerance : ℤ)) + railCapH_IU
             else if cfgSlideExternal.lidEnabled = true ∧ cfgSlideExternal.lidType = LidType.step then
               (cfgSlideExternal.lidThickness : ℤ)
             else 0)))
       ∧ (heightTooShortMsg ∈ (calculateConstraints cfgSlideExternal).errors ↔
           (cfgSlideExternal.height : ℤ) - (cfgSlideExternal.floor : ℤ) -
             (if cfgSlideExternal.lidEnabled = true ∧ cfgSlideExternal.lidType = LidType.slide then
                ((cfgSlideExternal.lidThickness : ℤ) + (cfgSlideExternal.tolerance : ℤ)) + railCapH_IU
              else if cfgSlideExternal.lidEnabled = true ∧ cfgSlideExternal.lidType = LidType.step then
                (cfgSlideExternal.lidThickness : ℤ)
              else 0) ≤ 0)) :=
  ⟨by decide, rfl, external_wall_height cfgSlideExternal (by decide) rfl⟩

/-! ## C8: segment order and contiguity for valid layouts -/

/-- The C8 property for one configuration: the populated segments of the
returned Layout occur in the fixed order feet (optional), floor, wall, then
at most one top feature (gridfinity lip, slide-lid rail+lid, or step lid
alone), each populated segment is non-degenerate (`yMin ≤ yMax`), and each
segment's `yMax` equals the next populated segment's `yMin` exactly (the
rendering overlap epsilon is applied later, in mesh construction, not in the
Layout). -/
def SegmentChainSpec (c : Config) : Prop :=
  ((calculateConstraints c).stack.feet.isSome ↔
      (c.appMode = AppMode.gridfinity ∧ c.gridfinityType = GridfinityType.bin))
  ∧ (∀ f, (calculateConstraints c).stack.feet = some f →
      f.yMin = 0 ∧ 0 ≤ f.yMax ∧ f.yMax = (calculateConstraints c).stack.floor.yMin)
  ∧ ((calculateConstraints c).stack.feet = none →
      (calculateConstraints c).stack.floor.yMin = 0)
  ∧ (calculateConstraints c).stack.floor.yMin ≤ (calculateConstraints c).stack.floor.yMax
  ∧ (calculateConstraints c).stack.floor.yMax = (calculateConstraints c).stack.wall.yMin
  ∧ (calculateConstraints c).stack.wall.yMin ≤ (calculateConstraints c).stack.wall.yMax
  ∧ ((calculateConstraints c).stack.lip.isSome ↔ c.appMode = AppMode.gridfinity)
  ∧ (∀ lp, (calculateConstraints c).stack.lip = some lp →
      lp.yMin = (calculateConstraints c).stack.wall.yMax
      ∧ lp.yMin ≤ lp.yMax
      ∧ lp.yMax = (calculateConstraints c).totalH)
  ∧ ((calculateConstraints c).stack.rail.isSome ↔
      (c.appMode ≠ AppMode.gridfinity ∧ c.lidEnabled = true ∧ c.lidType = LidType.slide))
  ∧ (∀ r, (calculateConstraints c).stack.rail = some r →
      r.spacer.yMin = (calculateConstraints c).stack.wall.yMax
      ∧ r.spacer.yMin ≤ r.spacer.yMax
      ∧ r.spacer.yMax = r.cap.yMin
      ∧ r.cap.yMin ≤ r.cap.yMax
      ∧ r.cap.yMax = (calculateConstraints c).totalH)
  ∧ ((∃ ld, (calculateConstraints c).stack.lid = some ld ∧ ld.ltype = LidType.step) ↔
      (c.appMode ≠ AppMode.gridfinity ∧ c.lidEnabled = true ∧ c.lidType = LidType.step))
  ∧ (∀ ld, (calculateConstraints c).stack.lid = some ld → ld.ltype = LidType.step →
      ld.yPos = (calculateConstraints c).stack.wall.yMax
      ∧ (calculateConstraints c).totalH = ld.yPos + ld.thickness)

/-- C8: every valid Layout satisfies the segment-chain property. -/
theorem layout_segment_chain (c : Config)
    (hv : (calculateConstraints c).valid = true) : SegmentChainSpec c := by
  have hwall : 0 ≤ targetWallH_IU c := targetWallH_nonneg_of_valid hv
  refine ⟨?_, ?_, ?_, ?_, rfl, ?_, ?_, ?_, ?_, ?_, ?_, ?_⟩
  · show (feetSeg c).isSome ↔ _
    rw [feetSeg]
    by_cases hc : c.appMode = AppMode.gridfinity ∧ c.gridfinityType = GridfinityType.bin
    · rw [if_pos hc]
      simp [hc]
    · rw [if_neg hc]
      simp [hc]
  · intro f hf
    replace hf : feetSeg c = some f := hf
    rw [feetSeg] at hf
    by_cases hc : c.appMode = AppMode.gridfinity ∧ c.gridfinityType = GridfinityType.bin
    · rw [if_pos hc] at hf
      obtain rfl := Option.some_inj.mp hf
      refine ⟨rfl, toSceneZ_nonneg (by decide), ?_⟩
      show toSceneZ footH_IU = toSceneZ (feetEnd_IU c)
      rw [feetEnd_IU, if_pos hc]
    · rw [if_neg hc] at hf
      exact absurd hf (by simp)
  · intro hf
    replace hf : feetSeg c = none := hf
    rw [feetSeg] at hf
    by_cases hc : c.appMode = AppMode.gridfinity ∧ c.gridfinityType = GridfinityType.bin
    · rw [if_pos hc] at hf
      exact absurd hf (by simp)
    · show toSceneZ (feetEnd_IU c) = 0
      rw [feetEnd_IU, if_neg hc, toSceneZ_zero]
  · show toSceneZ (feetEnd_IU c) ≤ toSceneZ (floorEnd_IU c)
    apply toSceneZ_le_toSceneZ
    rw [floorEnd_IU]
    omega
  · show toSceneZ (floorEnd_IU c) ≤ toSceneZ (wallEnd_IU c)
    apply toSceneZ_le_toSceneZ
    rw [wallEnd_IU]
    omega
  · show (lipSeg c).isSome ↔ _
    rw [lipSeg]
    by_cases hc : c.appMode = AppMode.gridfinity
    · rw [if_pos hc]
      simp [hc]
    · rw [if_neg hc]
      simp [hc]
  · intro lp hlp
    replace hlp : lipSeg c = some lp := hlp
    rw [lipSeg] at hlp
    by_cases hc : c.appMode = AppMode.gridfinity
    · rw [if_pos hc] at hlp
      obtain rfl := Option.some_inj.mp hlp
      refine ⟨rfl, ?_, ?_⟩
      · apply toSceneZ_le_toSceneZ
        have : lipHeight_IU = 440000 := rfl
        omega
      · show toSceneZ (wallEnd_IU c + lipHeight_IU) = toSceneZ (totalH_IU c)
        rw [totalH_IU, if_pos hc]
    · rw [if_neg hc] at hlp
      exact absurd hlp (by simp)
  · show (railSegs c).isSome ↔ _
    rw [railSegs]
    by_cases hc : c.appMode ≠ AppMode.gridfinity ∧ c.lidEnabled = true ∧
        c.lidType = LidType.slide
    · rw [if_pos hc]
      simp [hc]
    · rw [if_neg hc]
      simp [hc]
  · intro r hr
    replace hr : railSegs c = some r := hr
    rw [railSegs] at hr
    by_cases hc : c.appMode ≠ AppMode.gridfinity ∧ c.lidEnabled = true ∧
        c.lidType = LidType.slide
    · rw [if_pos hc] at hr
      obtain rfl := Option.some_inj.mp hr
      refine ⟨rfl, ?_, rfl, ?_, ?_⟩
      · apply toSceneZ_le_toSceneZ
        rw [spacerH_IU]
        omega
      · apply toSceneZ_le_toSceneZ
        have : railCapH_IU = 200000 := rfl
        omega
      · show toSceneZ (wallEnd_IU c + spacerH_IU c + railCapH_IU) = toSceneZ (totalH_IU c)
        rw [totalH_IU, if_neg hc.1, if_pos ⟨hc.2.1, hc.2.2⟩]
    · rw [if_neg hc] at hr
      exact absurd hr (by simp)
  · show (∃ ld, lidInfo c = some ld ∧ ld.ltype = LidType.step) ↔ _
    rw [lidInfo]
    by_cases hg : c.appMode = AppMode.gridfinity
    · rw [if_pos hg]
      simp [hg]
    · rw [if_neg hg]
      by_cases hslide : c.lidEnabled = true ∧ c.lidType = LidType.slide
      · rw [if_pos hslide]
        constructor
        · rintro ⟨ld, hld, hstep⟩
          obtain rfl := Option.some_inj.mp hld.symm
          exact absurd hstep (by simp)
        · rintro ⟨-, -, hstep⟩
          rw [hslide.2] at hstep
          exact absurd hstep (by decide)
      · rw [if_neg hslide]
        by_cases hstep : c.lidEnabled = true ∧ c.lidType = LidType.step
        · rw [if_pos hstep]
          constructor
          · intro _
            exact ⟨hg, hstep.1, hstep.2⟩
          · intro _
            exact ⟨_, rfl, rfl⟩
        · rw [if_neg hstep]
          constructor
          · rintro ⟨ld, hld, -⟩
            exact absurd hld (by simp)
          · rintro ⟨-, h1, h2⟩
            exact (hstep ⟨h1, h2⟩).elim
  · intro ld hld hstep
    replace hld : lidInfo c = some ld := hld
    rw [lidInfo] at hld
    by_cases hg : c.appMode = AppMode.gridfinity
    · rw [if_pos hg] at hld
      exact absurd hld (by simp)
    · rw [if_neg hg] at hld
      by_cases hslide : c.lidEnabled = true ∧ c.lidType = LidType.slide
      · rw [if_pos hslide] at hld
        obtain rfl := Option.some_inj.mp hld
        exact absurd hstep (by simp)
      · rw [if_neg hslide] at hld
        by_cases hst : c.lidEnabled = true ∧ c.lidType = LidType.step
        · rw [if_pos hst] at hld
          obtain rfl := Option.some_inj.mp hld
          constructor
          · rfl
          · show toSceneZ (totalH_IU c) = toSceneZ (wallEnd_IU c) + toSceneZ (c.lidThickness : ℤ)
            rw [totalH_IU, if_neg hg, if_neg hslide, if_pos hst,
              show wallEnd_IU c + (c.lidThickness : ℤ)
                  = wallEnd_IU c - (-(c.lidThickness : ℤ)) by ring,
              toSceneZ_sub]
            have : toSceneZ (-(c.lidThickness : ℤ)) = -toSceneZ (c.lidThickness : ℤ) := by
              rw [toSceneZ_eq, toSceneZ_eq]
              push_cast
              ring
            rw [this]
            ring
        · rw [if_neg hst] at hld
          exact absurd hld (by simp)

/-- Witness for C8 at the app's default (valid) internal-mode configuration. -/
theorem layout_segment_chain_witness :
    (calculateConstraints cfgInternalDefault).valid = true
    ∧ SegmentChainSpec cfgInternalDefault :=
  ⟨by decide, layout_segment_chain cfgInternalDefault (by decide)⟩

/-! ## C4: STL facet conservation -/

theorem facetCount_append (a b : List STLLine) :
    facetCount (a ++ b) = facetCount a + facetCount b :=
  List.countP_append _ _ _

theorem facetCount_emitTriangle (t : Tri) : facetCount (emitTriangle t) = 1 := rfl

theorem facetCount_flatMap_emit (ts : List Tri) :
    facetCount (ts.flatMap emitTriangle) = ts.length := by
  induction ts with
  | nil => rfl
  | cons t ts ih =>
    rw [List.flatMap_cons, facetCount_append, facetCount_emitTriangle, ih, List.length_cons]
    omega

theorem facetCount_meshLines (m : MeshObj) :
    facetCount (meshLines m) =
      if m.visible && (m.material.matType == "MeshStandardMaterial") then m.tris.length
      else 0 := by
  rw [meshLines]
  split
  · exact facetCount_flatMap_emit _
  · rfl

theorem emitTriangle_no_framing (t : Tri) :
    (emitTriangle t).countP isSolidHeaderLine = 0
    ∧ (emitTriangle t).countP isEndSolidLine = 0 := by
  constructor <;> rfl

theorem countP_flatMap_emit_framing (ts : List Tri) :
    (ts.flatMap emitTriangle).countP isSolidHeaderLine = 0
    ∧ (ts.flatMap emitTriangle).countP isEndSolidLine = 0 := by
  induction ts with
  | nil => exact ⟨rfl, rfl⟩
  | cons t ts ih =>
    rw [List.flatMap_cons, List.countP_append, List.countP_append]
    rw [(emitTriangle_no_framing t).1, (emitTriangle_no_framing t).2, ih.1, ih.2]
    exact ⟨rfl, rfl⟩

theorem meshLines_no_framing (m : MeshObj) :
    (meshLines m).countP isSolidHeaderLine = 0
    ∧ (meshLines m).countP isEndSolidLine = 0 := by
  rw [meshLines]
  split
  · exact countP_flatMap_emit_framing _
  · exact ⟨rfl, rfl⟩

theorem scene_flatMap_no_framing (scene : List MeshObj) :
    (scene.flatMap meshLines).countP isSolidHeaderLine = 0
    ∧ (scene.flatMap meshLines).countP isEndSolidLine = 0 := by
  induction scene with
  | nil => exact ⟨rfl, rfl⟩
  | cons m ms ih =>
    rw [List.flatMap_cons, List.countP_append, List.countP_append]
    rw [(meshLines_no_framing m).1, (meshLines_no_framing m).2, ih.1, ih.2]
    exact ⟨rfl, rfl⟩

theorem facetCount_scene (scene : List MeshObj) :
    facetCount (scene.flatMap meshLines) = standardMaterialTriCount scene := by
  induction scene with
  | nil => rfl
  | cons m ms ih =>
    rw [List.flatMap_cons, facetCount_append, ih, facetCount_meshLines]
    by_cases hc : (m.visible && (m.material.matType == "MeshStandardMaterial")) = true
    · simp [hc, standardMaterialTriCount, List.filter_cons]
    · simp [hc, standardMaterialTriCount, List.filter_cons]

/-- C4 amended: the serializer emits exactly one facet block per triangle of
each visible mesh whose material `type` is `MeshStandardMaterial` -- which
includes the lid-preview meshes, since `lidMaterial` is also a
`MeshStandardMaterial` -- framed by a single `solid`/`endsolid` pair. -/
theorem stl_facet_conservation (scene : List MeshObj) :
    facetCount (generateSTL scene) = standardMaterialTriCount scene
    ∧ (generateSTL scene).countP isSolidHeaderLine = 1
    ∧ (generateSTL scene).countP isEndSolidLine = 1
    ∧ (generateSTL scene).head? = some STLLine.solidHeader
    ∧ (generateSTL scene).getLast? = some STLLine.endSolid := by
  refine ⟨?_, ?_, ?_, ?_, ?_⟩
  · rw [generateSTL, facetCount_append, facetCount_append, facetCount_scene]
    have h1 : facetCount [STLLine.solidHeader] = 0 := rfl
    have h2 : facetCount [STLLine.endSolid] = 0 := rfl
    rw [h1, h2]
    omega
  · rw [generateSTL, List.countP_append, List.countP_append,
      (scene_flatMap_no_framing scene).1]
    rfl
  · rw [generateSTL, List.countP_append, List.countP_append,
      (scene_flatMap_no_framing scene).2]
    rfl
  · rfl
  · show ([STLLine.solidHeader] ++ scene.flatMap meshLines ++ [STLLine.endSolid]).getLast?
        = some STLLine.endSolid
    exact List.getLast?_concat _

/-- A triangle used only to build the counterexample scene. -/
def demoTri : Tri := ⟨⟨0, 0, 0⟩, ⟨1, 0, 0⟩, ⟨0, 1, 0⟩⟩

/-- A scene consisting of a single visible lid-preview mesh with one triangle. -/
def lidOnlyScene : List MeshObj := [⟨true, lidMaterial, [demoTri]⟩]

/-- C4 counterexample: a visible lid-preview mesh is serialized (its material
is a `MeshStandardMaterial`, the only thing the filter at source line 635
checks), so the emitted facet count is 1 while the claim's sum over visible
structural (non-lid-preview) meshes is 0. -/
theorem stl_lid_preview_cex :
    facetCount (generateSTL lidOnlyScene) = 1
    ∧ structuralTriCount lidOnlyScene = 0 := by
  constructor
  · rw [generateSTL, facetCount_append, facetCount_append, facetCount_scene]
    rfl
  · rfl

/-! ## C6: Gridfinity foot magnet/screw holes -/

/-- C6 counterexample: the first foot hole's pocket radius is 3.25 mm, not
the claimed `3.25 + 0.25 = 3.5` mm, and its screw bore radius is 1.45 mm,
not the claimed `1.45 + 0.25 = 1.7` mm (source line 321: the 0.5 mm
clearance is already included in the 6.5 mm diameter). -/
theorem foot_hole_radius_cex :
    gridfinityFootHoles.head? =
      some ⟨-footMagOff, -footMagOff, footMagR, footMagD, footScrewR⟩
    ∧ footMagR ≠ (3.25 + 0.25) * MM_TO_IN
    ∧ footScrewR ≠ (1.45 + 0.25) * MM_TO_IN := by
  refine ⟨rfl, ?_, ?_⟩
  · rw [footMagR, MM_TO_IN]
    norm_num
  · rw [footScrewR, MM_TO_IN]
    norm_num

/-- C6 amended: the foot generator places four magnet holes at offsets of
±13 mm on both axes, each with pocket radius 3.25 mm (6.5 mm diameter: 6 mm
magnet + 0.5 mm clearance), pocket depth 2.4 mm, and a concentric screw bore
of radius 1.45 mm (2.9 mm diameter). -/
theorem foot_holes_layout :
    gridfinityFootHoles.length = 4
    ∧ gridfinityFootHoles.map (fun h => (h.x, h.z)) =
        [(-(13 * MM_TO_IN), -(13 * MM_TO_IN)), (13 * MM_TO_IN, -(13 * MM_TO_IN)),
         (-(13 * MM_TO_IN), 13 * MM_TO_IN), (13 * MM_TO_IN, 13 * MM_TO_IN)]
    ∧ ∀ h ∈ gridfinityFootHoles,
        h.radius = 3.25 * MM_TO_IN ∧ h.depth = 2.4 * MM_TO_IN
        ∧ h.screwRadius = 1.45 * MM_TO_IN := by
  refine ⟨rfl, ?_, ?_⟩
  · rw [gridfinityFootHoles, footMagOff]
    norm_num
  · intro h hm
    rw [gridfinityFootHoles] at hm
    have hval : h.radius = footMagR ∧ h.depth = footMagD ∧ h.screwRadius = footScrewR := by
      simp only [List.mem_cons, List.not_mem_nil, or_false] at hm
      rcases hm with hm | hm | hm | hm
      all_goals rw [hm]
      all_goals exact ⟨rfl, rfl, rfl⟩
    refine ⟨?_, ?_, ?_⟩
    · rw [hval.1, footMagR, MM_TO_IN]
      norm_num
    · rw [hval.2.1, footMagD]
    · rw [hval.2.2, footScrewR, MM_TO_IN]
      norm_num

/-! ## C7: perforation spacing, margin and row offset -/

/-- C7 counterexample: at infill 0.8 the code's target void fraction is
`f = 0.2 ∈ (0,1)`, and the squared spacing the code uses,
`hexR^2 * 3 / f`, differs from the square of the claimed formula
`holeRadius * sqrt(3 / (1 - f))` (both spacings are positive, so the
spacings themselves differ). -/
theorem perforation_spacing_cex :
    perfVoidFraction (4 / 5) = 1 / 5
    ∧ perfSpacingSq (perfHexR 635000) (perfVoidFraction (4 / 5))
        ≠ specClaimSpacingSq (perfHexR 635000) (perfVoidFraction (4 / 5)) := by
  constructor
  · rw [perfVoidFraction]
    norm_num
  · rw [perfSpacingSq, specClaimSpacingSq, perfVoidFraction, perfHexR, toScene, MM_TO_IN]
    norm_num

/-- C7 amended: for any unclamped infill `s ∈ [0.01, 0.99]` the target void
fraction is `1 - s` and the squared center spacing is
`hexR^2 * 3 / (1 - s)` (i.e. spacing `= hexR * sqrt(3 / f)` for void
fraction `f = 1 - s`); the margin reserved on all sides is 1.5 x the panel
thickness, every emitted center respects it, and each center lies at
`startX + c * spacingX` on even rows, offset by half a spacing on odd rows. -/
theorem perforation_layout (infill : ℚ) (hs : ℕ)
    (h1 : 1 / 100 ≤ infill) (h2 : infill ≤ 99 / 100) :
    perfVoidFraction infill = 1 - infill
    ∧ perfSpacingSq (perfHexR hs) (perfVoidFraction infill)
        = perfHexR hs ^ 2 * (3 / (1 - infill))
    ∧ (∀ w hgt thick sx sy : ℚ, 0 ≤ sx → 0 ≤ sy →
        ∀ pc ∈ perfCenters w hgt thick (perfHexR hs) sx sy,
          (∃ r c : ℕ,
              pc.2 = perfStartY thick (perfHexR hs) + r * sy
              ∧ pc.1 = perfStartX w thick (perfHexR hs) + c * sx
                  + (if r % 2 = 1 then sx / 2 else 0))
          ∧ perfStartX w thick (perfHexR hs) ≤ pc.1
          ∧ perfStartY thick (perfHexR hs) ≤ pc.2
          ∧ pc.1 ≤ w / 2 - perfMargin thick
          ∧ pc.2 ≤ hgt - perfMargin thick) := by
  have hvf : perfVoidFraction infill = 1 - infill := by
    rw [perfVoidFraction]
    rw [max_eq_right (by norm_num [h1] : (0.01 : ℚ) ≤ infill)]
    rw [min_eq_right (by norm_num [h2] : infill ≤ (0.99 : ℚ))]
  refine ⟨hvf, by rw [perfSpacingSq, hvf], ?_⟩
  intro w hgt thick sx sy hsx hsy pc hmem
  rw [perfCenters] at hmem
  by_cases hguard : 0 < ⌊(w - perfMargin thick * 2) / sx⌋ ∧ 0 < ⌊(hgt - perfMargin thick * 2) / sy⌋
  · rw [if_pos hguard] at hmem
    rw [List.mem_flatMap] at hmem
    obtain ⟨r, hr, hmem2⟩ := hmem
    rw [List.mem_filterMap] at hmem2
    obtain ⟨c, hc, heq⟩ := hmem2
    by_cases hodd : r % 2 = 1 ∧ c = (⌊(w - perfMargin thick * 2) / sx⌋).toNat - 1
    · rw [if_pos hodd] at heq
      exact absurd heq (by simp)
    · rw [if_neg hodd] at heq
      by_cases hskip : perfStartX w thick (perfHexR hs) + c * sx
            + (if r % 2 = 1 then sx / 2 else 0) > w / 2 - perfMargin thick
          ∨ perfStartY thick (perfHexR hs) + r * sy > hgt - perfMargin thick
      · rw [if_pos hskip] at heq
        exact absurd heq (by simp)
      · rw [if_neg hskip] at heq
        obtain rfl := Option.some_inj.mp heq
        push_neg at hskip
        have hoff : (0 : ℚ) ≤ (if r % 2 = 1 then sx / 2 else 0) := by
          split
          · linarith
          · exact le_refl 0
        have hcx : (0 : ℚ) ≤ (c : ℚ) * sx := mul_nonneg (by positivity) hsx
        have hry : (0 : ℚ) ≤ (r : ℚ) * sy := mul_nonneg (by positivity) hsy
        refine ⟨⟨r, c, rfl, rfl⟩, ?_, ?_, hskip.1, hskip.2⟩
        · show perfStartX w thick (perfHexR hs)
              ≤ perfStartX w thick (perfHexR hs) + (c : ℚ) * sx
                + (if r % 2 = 1 then sx / 2 else 0)
          linarith
        · show perfStartY thick (perfHexR hs)
              ≤ perfStartY thick (perfHexR hs) + (r : ℚ) * sy
          linarith
  · rw [if_neg hguard] at hmem
    exact absurd hmem (List.not_mem_nil _)

/-- Witness for the amended C7 at infill 1/2 and a 0.25 in hole. -/
theorem perforation_layout_witness :
    ((1 : ℚ) / 100 ≤ 1 / 2 ∧ (1 : ℚ) / 2 ≤ 99 / 100)
    ∧ (perfVoidFraction (1 / 2) = 1 - 1 / 2
       ∧ perfSpacingSq (perfHexR 635000) (perfVoidFraction (1 / 2))
           = perfHexR 635000 ^ 2 * (3 / (1 - 1 / 2))
       ∧ (∀ w hgt thick sx sy : ℚ, 0 ≤ sx → 0 ≤ sy →
           ∀ pc ∈ perfCenters w hgt thick (perfHexR 635000) sx sy,
             (∃ r c : ℕ,
                 pc.2 = perfStartY thick (perfHexR 635000) + r * sy
                 ∧ pc.1 = perfStartX w thick (perfHexR 635000) + c * sx
                     + (if r % 2 = 1 then sx / 2 else 0))
             ∧ perfStartX w thick (perfHexR 635000) ≤ pc.1
             ∧ perfStartY thick (perfHexR 635000) ≤ pc.2
             ∧ pc.1 ≤ w / 2 - perfMargin thick
             ∧ pc.2 ≤ hgt - perfMargin thick)) :=
  ⟨⟨by norm_num, by norm_num⟩,
   perforation_layout (1 / 2) 635000 (by norm_num) (by norm_num)⟩

/-! ## C10: ring point counts and side-wall index bounds -/

theorem generateRoundedRectRing_length (cosf sinf : ℚ → ℚ) (w d rad : ℚ) (n : ℕ) :
    (generateRoundedRectRing cosf sinf w d rad n).length = 4 * n := by
  simp only [generateRoundedRectRing, List.length_flatMap, roundedRectCorners,
    List.map_cons, List.map_nil, Function.comp, List.length_map, List.length_range,
    List.sum_cons, List.sum_nil]
  omega

/-- The radius argument is clamped internally: passing the pre-clamped value
produces the same ring. -/
theorem generateRoundedRectRing_clamped (cosf sinf : ℚ → ℚ) (w d rad : ℚ) (n : ℕ) :
    generateRoundedRectRing cosf sinf w d rad n
      = generateRoundedRectRing cosf sinf w d (min rad (min (w / 2) (d / 2))) n := by
  rw [generateRoundedRectRing, generateRoundedRectRing]
  rw [min_assoc, min_self (min (w / 2) (d / 2))]

theorem levelRing_length (cosf sinf : ℚ → ℚ) (n : ℕ) (l : Level) :
    (levelRing cosf sinf n l).length = 4 * n := by
  rw [levelRing, List.length_map, generateRoundedRectRing_length]

theorem profileRings_length (cosf sinf : ℚ → ℚ) (levels : List Level) (n : ℕ) :
    ∀ ring ∈ profileRings cosf sinf levels n, ring.length = 4 * n := by
  intro ring hring
  rw [profileRings] at hring
  obtain ⟨l, -, rfl⟩ := List.mem_map.mp hring
  exact levelRing_length _ _ _ _

theorem sideWallVertices_length (p : ℕ) :
    ∀ rings : List (List Pt3), (∀ ring ∈ rings, ring.length = p) →
      (sideWallVertices rings).length = (rings.length - 1) * (2 * p)
  | [] => by
    intro _
    simp [sideWallVertices]
  | [a] => by
    intro _
    simp [sideWallVertices]
  | a :: b :: t => by
    intro h
    have ih := sideWallVertices_length p (b :: t) fun ring hr =>
      h ring (List.mem_cons_of_mem _ hr)
    rw [sideWallVertices] at ih ⊢
    rw [show (a :: b :: t).zip (a :: b :: t).tail = (a, b) :: ((b :: t).zip (b :: t).tail)
        from rfl]
    rw [List.flatMap_cons, List.length_append, List.length_append, ih]
    rw [h a (List.mem_cons_self _ _), h b (List.mem_cons_of_mem _ (List.mem_cons_self _ _))]
    simp [Nat.mul_comm]
    ring

theorem sideWallIndices_bound (nR p : ℕ) :
    ∀ idx ∈ sideWallIndices nR p, idx < (nR - 1) * (2 * p) := by
  intro idx hidx
  rw [sideWallIndices] at hidx
  rw [List.mem_flatMap] at hidx
  obtain ⟨r, hr, hidx2⟩ := hidx
  rw [List.mem_flatMap] at hidx2
  obtain ⟨i, hi, hmem⟩ := hidx2
  rw [List.mem_range] at hr hi
  have hp : 0 < p := by omega
  have hnxt : (i + 1) % p < p := Nat.mod_lt _ hp
  have hstep : idx < (r + 1) * (2 * p) := by
    have hexp : (r + 1) * (2 * p) = r * (2 * p) + 2 * p := by ring
    simp only [List.mem_cons, List.not_mem_nil, or_false] at hmem
    rcases hmem with h | h | h | h | h | h
    all_goals omega
  have hmul : (r + 1) * (2 * p) ≤ (nR - 1) * (2 * p) :=
    Nat.mul_le_mul_right _ (by omega)
  omega

/-- C10: for any corner-segment count `n ≥ 1` the ring generator returns
exactly `4 * n` points (the radius being clamped internally), so the rings of
any level list share length `4 * n`, and every index pushed by the
side-wall quad-strip loop of `buildProfileGeometry` addresses a vertex the
loop has pushed (the index stream stays in bounds). -/
theorem ring_counts_and_bounds (cosf sinf : ℚ → ℚ) (w d rad : ℚ) (n : ℕ)
    (hn : 1 ≤ n) :
    (generateRoundedRectRing cosf sinf w d rad n).length = 4 * n
    ∧ generateRoundedRectRing cosf sinf w d rad n
        = generateRoundedRectRing cosf sinf w d (min rad (min (w / 2) (d / 2))) n
    ∧ ∀ levels : List Level,
        (∀ ring ∈ profileRings cosf sinf levels n, ring.length = 4 * n)
        ∧ (levels ≠ [] →
            ((profileRings cosf sinf levels n).headD []).length = 4 * n)
        ∧ (sideWallVertices (profileRings cosf sinf levels n)).length
            = (levels.length - 1) * (2 * (4 * n))
        ∧ ∀ idx ∈ sideWallIndices (profileRings cosf sinf levels n).length (4 * n),
            idx < (sideWallVertices (profileRings cosf sinf levels n)).length := by
  refine ⟨generateRoundedRectRing_length _ _ _ _ _ _,
    generateRoundedRectRing_clamped _ _ _ _ _ _, ?_⟩
  intro levels
  have hlen : (profileRings cosf sinf levels n).length = levels.length := by
    rw [profileRings, List.length_map]
  have hverts := sideWallVertices_length (4 * n) (profileRings cosf sinf levels n)
    (profileRings_length _ _ _ _)
  refine ⟨profileRings_length _ _ _ _, ?_, ?_, ?_⟩
  · intro hne
    cases levels with
    | nil => exact absurd rfl hne
    | cons l ls =>
      show (levelRing cosf sinf n l).length = 4 * n
      exact levelRing_length _ _ _ _
  · rw [hverts, hlen]
  · intro idx hidx
    have := sideWallIndices_bound (profileRings cosf sinf levels n).length (4 * n) idx hidx
    rw [hverts, hlen] at *
    omega

/-- Witness for C10 at the source's default `cornerSegs = 8`. -/
theorem ring_counts_and_bounds_witness :
    1 ≤ 8
    ∧ ((generateRoundedRectRing (fun _ => 0) (fun _ => 0) 1 1 (1 / 4) 8).length = 4 * 8
       ∧ generateRoundedRectRing (fun _ => 0) (fun _ => 0) 1 1 (1 / 4) 8
           = generateRoundedRectRing (fun _ => 0) (fun _ => 0) 1 1
               (min (1 / 4) (min (1 / 2) (1 / 2))) 8
       ∧ ∀ levels : List Level,
           (∀ ring ∈ profileRings (fun _ => 0) (fun _ => 0) levels 8,
               ring.length = 4 * 8)
           ∧ (levels ≠ [] →
               ((profileRings (fun _ => 0) (fun _ => 0) levels 8).headD []).length = 4 * 8)
           ∧ (sideWallVertices (profileRings (fun _ => 0) (fun _ => 0) levels 8)).length
               = (levels.length - 1) * (2 * (4 * 8))
           ∧ ∀ idx ∈ sideWallIndices
                 (profileRings (fun _ => 0) (fun _ => 0) levels 8).length (4 * 8),
               idx < (sideWallVertices (profileRings (fun _ => 0) (fun _ => 0) levels 8)).length) :=
  ⟨by norm_num, ring_counts_and_bounds (fun _ => 0) (fun _ => 0) 1 1 (1 / 4) 8 (by norm_num)⟩

end Box3D
